import Mathlib

/-!
Verification of the YSI ODO RTU sensor driver (ODO_sensor_lib/core.py).

The development shallowly embeds the register-block codec and the protocol
operations of the class YSIOdoRtuSensor.  Register words and bytes are
natural numbers; the pymodbus payload helpers (BinaryPayloadDecoder and
BinaryPayloadBuilder, both used with byteorder BIG and wordorder BIG
throughout the source) are modelled as pure byte-list manipulations.
IEEE-754 binary32 values are modelled by their 32-bit bit patterns, which
is the level at which the bit-for-bit claims are stated.  Each protocol
operation is a pure function of the session state, the caller arguments
and the transport response to the single request it issues; it returns its
Python result together with the list of transport calls it performed, so
that claims about which calls an operation issues become statements about
that trace.
-/

namespace YSIOdo

/-- Big-endian byte pair of one register word, as packed by pymodbus
BinaryPayloadDecoder.fromRegisters (network order pack of each word). -/
def wordToBytes (w : Nat) : List Nat := [w / 256 % 256, w % 256]

/-- Flatten a register list to its byte payload, high byte of each word first. -/
def wordsToBytes (ws : List Nat) : List Nat := (ws.map wordToBytes).flatten

/-- Group a byte list back into register words, two bytes per word, high byte
first; a trailing odd byte is dropped (pymodbus payloads always have even
length). -/
def bytesToWords : List Nat → List Nat
  | [] => []
  | [_] => []
  | b0 :: b1 :: rest => (b0 * 256 + b1) :: bytesToWords rest

/-- Big-endian value of a byte list. -/
def bytesBE (bs : List Nat) : Nat := bs.foldl (fun a b => a * 256 + b) 0

/-- Model of pymodbus BinaryPayloadDecoder: a byte payload and a running
pointer. -/
structure Decoder where
  payload : List Nat
  pointer : Nat
deriving DecidableEq

/-- Model of BinaryPayloadDecoder.fromRegisters with byteorder BIG. -/
def Decoder.fromRegisters (regs : List Nat) : Decoder :=
  { payload := wordsToBytes regs, pointer := 0 }

/-- Take n bytes at the pointer and advance it. -/
def Decoder.takeBytes (d : Decoder) (n : Nat) : List Nat × Decoder :=
  ((d.payload.drop d.pointer).take n, { d with pointer := d.pointer + n })

/-- Model of decode_8bit_uint. -/
def Decoder.decode8 (d : Decoder) : Nat × Decoder :=
  let r := d.takeBytes 1
  (bytesBE r.1, r.2)

/-- Model of decode_16bit_uint with byteorder BIG. -/
def Decoder.decode16 (d : Decoder) : Nat × Decoder :=
  let r := d.takeBytes 2
  (bytesBE r.1, r.2)

/-- Model of decode_32bit_uint and decode_32bit_float with byteorder BIG and
wordorder BIG: both read the next four payload bytes big-endian; the float
variant is identified with the 32-bit bit pattern it carries. -/
def Decoder.decode32 (d : Decoder) : Nat × Decoder :=
  let r := d.takeBytes 4
  (bytesBE r.1, r.2)

/-- Model of decode_string(n): the next n raw payload bytes, with no
trimming of any kind (pymodbus returns the slice as is). -/
def Decoder.decodeString (d : Decoder) (n : Nat) : List Nat × Decoder :=
  d.takeBytes n

/-- Big-endian 4-byte encoding of a 32-bit value (value taken modulo 2^32). -/
def u32be (x : Nat) : List Nat := [x / 2 ^ 24 % 256, x / 2 ^ 16 % 256, x / 2 ^ 8 % 256, x % 256]

/-- Big-endian 2-byte encoding of a 16-bit value. -/
def u16be (x : Nat) : List Nat := [x / 2 ^ 8 % 256, x % 256]

/-- Model of pymodbus BinaryPayloadBuilder with byteorder BIG and wordorder
BIG (the only configuration the source uses): an accumulated byte payload. -/
structure Builder where
  payload : List Nat
deriving DecidableEq

/-- Model of add_32bit_uint and add_32bit_float: append the four big-endian
bytes of the 32-bit value (for floats, of its binary32 bit pattern). -/
def Builder.add32 (b : Builder) (x : Nat) : Builder := { payload := b.payload ++ u32be x }

/-- Model of add_16bit_uint. -/
def Builder.add16 (b : Builder) (x : Nat) : Builder := { payload := b.payload ++ u16be x }

/-- Model of to_registers (and equally of build() followed by a
skip_encode write): the payload regrouped into register words. -/
def Builder.toRegisters (b : Builder) : List Nat := bytesToWords b.payload

/-- One primitive transport call as issued through the pymodbus client. -/
inductive TransportCall where
  | connect
  | readHolding (addr count unitId : Nat)
  | readInput (addr count unitId : Nat)
  | writeSingle (addr value unitId : Nat)
  | writeBlock (addr : Nat) (values : List Nat) (unitId : Nat)
deriving DecidableEq

/-- Outcome of one read request: a register list, an error-status response
(isError() true), or a raised pymodbus exception. -/
inductive ReadResp where
  | ok (regs : List Nat)
  | errStatus
  | raised
deriving DecidableEq

/-- Outcome of one write request. -/
inductive WriteResp where
  | ok
  | errStatus
  | raised
deriving DecidableEq

/-- Outcome of client.connect(): port opened, open returned False, or a
ModbusException was raised. -/
inductive ConnectOutcome where
  | opened
  | refused
  | raised
deriving DecidableEq

/-- Result of a Python call: a normal return value or an uncaught exception. -/
inductive PyResult (α : Type) where
  | ret (a : α)
  | exn (msg : String)
deriving DecidableEq

/-- A decoded field value: numeric (integers, or float bit patterns) or a
raw byte string. -/
inductive Val where
  | num (n : Nat)
  | str (bs : List Nat)
deriving DecidableEq

/-- Session state of YSIOdoRtuSensor: the unit id, the connected attribute,
and whether the serial client currently holds an open port. -/
structure Sensor where
  unit_id : Nat
  connected : Bool
  clientOpen : Bool
deriving DecidableEq

/-- Model of the constructor: the client is created unopened and connected
is initialised to False. -/
def sensorInit (uid : Nat) : Sensor :=
  { unit_id := uid, connected := false, clientOpen := false }

/-- Model of connect(): assigns the result of client.connect() to the
connected attribute and returns it; a ModbusException is caught and leaves
connected as False with return value False. -/
def connect (s : Sensor) (o : ConnectOutcome) : Bool × Sensor :=
  match o with
  | .opened => (true, { s with connected := true, clientOpen := true })
  | .refused => (false, { s with connected := false, clientOpen := false })
  | .raised => (false, { s with connected := false, clientOpen := false })

/-- Model of disconnect(): client.close() only; the connected attribute is
not touched. -/
def disconnect (s : Sensor) : Sensor := { s with clientOpen := false }

/-- The baud_rates class table of the source. -/
def baud_rates : List (Nat × Nat) := [(9600, 0x00), (19200, 0x01), (38400, 0x02), (57600, 0x03), (115200, 0x04)]

/-- The parities class table of the source. -/
def parities : List (String × Nat) := [("none", 0x00), ("odd", 0x01), ("even", 0x02)]

/-- Reverse lookup of a raw code in a label table, first match wins, as the
source does with list(d.keys())[list(d.values()).index(code)]. -/
def revLookup {α : Type} (table : List (α × Nat)) (code : Nat) : Option α :=
  (table.find? (fun e => e.2 == code)).map Prod.fst

/-- The combined register value written by set_baud_rate_and_parity:
parity code in the high byte, baud code in the low byte; none when either
label is absent from its table (the validation branch). -/
def encodeBaudParity (baud : Nat) (parity : String) : Option Nat :=
  match baud_rates.lookup baud, parities.lookup parity with
  | some bc, some pc => some ((pc <<< 8) ||| bc)
  | _, _ => none

/-- The decoding path of get_baud_rate_and_parity: two sequential
decode_8bit_uint calls on the register payload (parity first, then baud),
each reverse-looked-up in its table; none when either code is unknown. -/
def decodeBaudParity (regs : List Nat) : Option (Nat × String) :=
  let d := Decoder.fromRegisters regs
  let p := d.decode8
  let b := p.2.decode8
  match revLookup parities p.1, revLookup baud_rates b.1 with
  | some pl, some bl => some (bl, pl)
  | _, _ => none

/-- Model of get_baud_rate_and_parity: one read of 1 holding register at
0x0001; any error (error status, raised call, unknown code) is caught and
returned as None. -/
def get_baud_rate_and_parity (s : Sensor) (resp : ReadResp) :
    Option (Nat × String) × List TransportCall :=
  let trace := [TransportCall.readHolding 0x0001 1 s.unit_id]
  match resp with
  | .ok regs => (decodeBaudParity regs, trace)
  | _ => (none, trace)

/-- Model of set_baud_rate_and_parity: unknown labels raise ValueError
before any transport call; otherwise one single-register write of the
combined value at 0x0001.  The write response object is never inspected:
only a raised ModbusException yields False, an error-status response still
returns True. -/
def set_baud_rate_and_parity (s : Sensor) (baud : Nat) (parity : String) (resp : WriteResp) :
    PyResult Bool × List TransportCall :=
  match encodeBaudParity baud parity with
  | none => (.exn "Invalid baud rate or parity.", [])
  | some combined =>
      match resp with
      | .raised => (.ret false, [TransportCall.writeSingle 0x0001 combined s.unit_id])
      | _ => (.ret true, [TransportCall.writeSingle 0x0001 combined s.unit_id])

/-- The 16-bit field of get_device_info at word index i: a fresh decoder
over the one-register slice. -/
def u16At (regs : List Nat) (i : Nat) : Nat :=
  ((Decoder.fromRegisters ((regs.drop i).take 1)).decode16).1

/-- The string field of get_device_info over the word slice lo..hi, read
through decode_string with byte count n. -/
def stringAt (regs : List Nat) (lo hi n : Nat) : List Nat :=
  ((Decoder.fromRegisters ((regs.drop lo).take (hi - lo))).decodeString n).1

/-- Model of get_device_info: one read of 17 holding registers at 0x1000,
decoded field by field from register slices; all failures collapse to None. -/
def get_device_info (s : Sensor) (resp : ReadResp) :
    Option (List (String × Val)) × List TransportCall :=
  let trace := [TransportCall.readHolding 0x1000 17 s.unit_id]
  match resp with
  | .ok regs =>
      (some [("product_id", .num (u16At regs 0)),
             ("model_id", .num (u16At regs 1)),
             ("submodel_id", .num (u16At regs 2)),
             ("firmware_major_revision", .num (u16At regs 3)),
             ("firmware_minor_revision", .num (u16At regs 4)),
             ("firmware_subminor_revision", .num (u16At regs 5)),
             ("hardware_major_revision", .num (u16At regs 6)),
             ("hardware_minor_revision", .num (u16At regs 7)),
             ("manufacturing_serial_number", .str (stringAt regs 8 13 10)),
             ("printed_circuit_board_serial_number", .str (stringAt regs 13 17 8))], trace)
  | _ => (none, trace)

/-- The live-snapshot field table exactly as sliced in get_data: field name,
slice start and slice stop in register words.  Every field is decoded by a
32-bit decode (decode_32bit_float, or decode_32bit_uint for
time_since_boot), which consumes the first two words of its slice. -/
def liveSnapshotFields : List (String × Nat × Nat) :=
  [("odo_saturation", 0, 2),
   ("odo_concentration", 2, 4),
   ("odo_local_barometer_compensated", 4, 8),
   ("temperature", 8, 10),
   ("ref_temperature", 10, 12),
   ("time_since_boot", 12, 14),
   ("conductivity", 14, 16),
   ("specific_conductivity", 16, 18),
   ("salinity", 18, 20),
   ("conductivity _nLF", 20, 22),
   ("total_dissolved_solids", 22, 24)]

/-- Decode of one live-snapshot field: a 32-bit big-endian decode over the
register slice lo..hi (a fresh decoder per field, as in the source). -/
def sliceDecode32 (regs : List Nat) (lo hi : Nat) : Nat :=
  ((Decoder.fromRegisters ((regs.drop lo).take (hi - lo))).decode32).1

/-- How many live-snapshot fields actually decode register word w: a field
consumes exactly the first two words of its slice. -/
def liveSnapshotConsumes (w : Nat) : Nat :=
  (liveSnapshotFields.filter (fun f => decide (f.2.1 ≤ w ∧ w < f.2.1 + 2))).length

/-- Model of get_data: one read of 24 input registers at 0x0000, decoded
into the 11 fields of the table; any failure collapses to None.  The
connected attribute is never consulted. -/
def get_data (s : Sensor) (resp : ReadResp) :
    Option (List (String × Nat)) × List TransportCall :=
  let trace := [TransportCall.readInput 0x0000 24 s.unit_id]
  match resp with
  | .ok regs =>
      (some (liveSnapshotFields.map (fun f => (f.1, sliceDecode32 regs f.2.1 f.2.2))), trace)
  | _ => (none, trace)

/-- Model of get_cap_serial: one read of 5 holding registers at 0x0120,
decoded with decode_string(10) over the whole payload. -/
def get_cap_serial (s : Sensor) (resp : ReadResp) : Option Val × List TransportCall :=
  let trace := [TransportCall.readHolding 0x0120 5 s.unit_id]
  match resp with
  | .ok regs => (some (.str (((Decoder.fromRegisters regs).decodeString 10).1)), trace)
  | _ => (none, trace)

/-- Model of odo_factory_reset: one single-register write of 0x0001 at
0x0200; this operation does check isError() on the response. -/
def odo_factory_reset (s : Sensor) (resp : WriteResp) : PyResult Bool × List TransportCall :=
  let trace := [TransportCall.writeSingle 0x0200 0x0001 s.unit_id]
  match resp with
  | .ok => (.ret true, trace)
  | .errStatus => (.ret false, trace)
  | .raised => (.ret false, trace)

/-- Model of perform_odo_zero_calibration: one block write of the 32-bit
timestamp at 0x0220; any raised exception is caught and returns False, an
error-status response is ignored and returns True. -/
def perform_odo_zero_calibration (s : Sensor) (tm : Nat) (resp : WriteResp) :
    PyResult Bool × List TransportCall :=
  let payload := ((Builder.mk []).add32 tm).toRegisters
  let trace := [TransportCall.writeBlock 0x0220 payload s.unit_id]
  match resp with
  | .raised => (.ret false, trace)
  | _ => (.ret true, trace)

/-- Model of perform_odo_percent_saturation_calibration: one block write of
the 32-bit timestamp and the 32-bit float pressure bits at 0x0230.  There is
no try block and the response object is never inspected: only a raised call
escapes, an error-status response returns normally. -/
def perform_odo_percent_saturation_calibration (s : Sensor) (tm press : Nat) (resp : WriteResp) :
    PyResult Unit × List TransportCall :=
  let payload := (((Builder.mk []).add32 tm).add32 press).toRegisters
  let trace := [TransportCall.writeBlock 0x0230 payload s.unit_id]
  match resp with
  | .raised => (.exn "ModbusException", trace)
  | _ => (.ret (), trace)

/-- Model of perform_odo_mgL_calibration: one block write of the timestamp
and two float values at 0x0240, same error shape as the percent-saturation
write. -/
def perform_odo_mgL_calibration (s : Sensor) (tm v sal : Nat) (resp : WriteResp) :
    PyResult Unit × List TransportCall :=
  let payload := ((((Builder.mk []).add32 tm).add32 v).add32 sal).toRegisters
  let trace := [TransportCall.writeBlock 0x0240 payload s.unit_id]
  match resp with
  | .raised => (.exn "ModbusException", trace)
  | _ => (.ret (), trace)

/-- The key list iterated by set_odo_cap_coefficients, in source order. -/
def capKeys : List String :=
  ["K1", "K2", "K3", "K4", "K5", "K6", "K7", "KC", "Cap Replacement Time"]

/-- One loop step of set_odo_cap_coefficients: dictionary lookup of the key
(KeyError modelled as none), then add_16bit_uint for KC and add_32bit_float
for every other key. -/
def buildCapGo (c : List (String × Nat)) : List String → Builder → Option Builder
  | [], b => some b
  | k :: ks, b =>
      match c.lookup k with
      | none => none
      | some v => buildCapGo c ks (if k = "KC" then b.add16 v else b.add32 v)

/-- The payload builder loop of set_odo_cap_coefficients over the full key
list. -/
def buildCap (c : List (String × Nat)) : Option Builder :=
  buildCapGo c capKeys (Builder.mk [])

/-- Bytes contributed by one key in the cap-coefficient payload. -/
def keyWidth (k : String) : Nat := if k = "KC" then 2 else 4

/-- Bytes contributed by a key list in the cap-coefficient payload. -/
def keysWidth (ks : List String) : Nat := (ks.map keyWidth).sum

/-- Model of set_odo_cap_coefficients: a missing key raises KeyError inside
the builder loop before any transport call; otherwise one block write of the
17-word payload at 0x0100.  Keys of the values mapping outside the declared
list are never consulted.  The try block only covers the write: a raised
call returns False, an error-status response is ignored and returns True. -/
def set_odo_cap_coefficients (s : Sensor) (c : List (String × Nat)) (resp : WriteResp) :
    PyResult Bool × List TransportCall :=
  match buildCap c with
  | none => (.exn "KeyError", [])
  | some b =>
      let payload := b.toRegisters
      let trace := [TransportCall.writeBlock 0x0100 payload s.unit_id]
      match resp with
      | .raised => (.ret false, trace)
      | _ => (.ret true, trace)

/-- Model of get_odo_cap_coefficients: one read of 17 holding registers at
0x0100, decoded sequentially by a single decoder. -/
def get_odo_cap_coefficients (s : Sensor) (resp : ReadResp) :
    Option (List (String × Nat)) × List TransportCall :=
  let trace := [TransportCall.readHolding 0x0100 17 s.unit_id]
  match resp with
  | .ok regs =>
      let r1 := (Decoder.fromRegisters regs).decode32
      let r2 := r1.2.decode32
      let r3 := r2.2.decode32
      let r4 := r3.2.decode32
      let r5 := r4.2.decode32
      let r6 := r5.2.decode32
      let r7 := r6.2.decode32
      let rkc := r7.2.decode16
      let rcrt := rkc.2.decode32
      (some [("K1", r1.1), ("K2", r2.1), ("K3", r3.1), ("K4", r4.1), ("K5", r5.1),
             ("K6", r6.1), ("K7", r7.1), ("KC", rkc.1), ("Cap Replacement Time", rcrt.1)], trace)
  | _ => (none, trace)

/-- Model of perform_specific_conductance_calibration: the operation first
calls connect() itself and asserts on the result, then issues one block
write of the timestamp and value at 0x0340 and raises if the response has
error status. -/
def perform_specific_conductance_calibration (s : Sensor) (o : ConnectOutcome) (tm v : Nat)
    (resp : WriteResp) : PyResult Unit × List TransportCall × Sensor :=
  let cr := connect s o
  if cr.1 then
    let payload := (((Builder.mk []).add32 tm).add32 v).toRegisters
    let trace := [TransportCall.connect, TransportCall.writeBlock 0x0340 payload s.unit_id]
    match resp with
    | .ok => (.ret (), trace, cr.2)
    | .errStatus => (.exn "Specific conductance calibration failed.", trace, cr.2)
    | .raised => (.exn "ModbusException", trace, cr.2)
  else
    (.exn "AssertionError: Failed to connect to the sensor", [TransportCall.connect], cr.2)

/-- Model of perform_nlf_conductivity_calibration: same shape as the
specific-conductance calibration, writing at 0x0350. -/
def perform_nlf_conductivity_calibration (s : Sensor) (o : ConnectOutcome) (tm v : Nat)
    (resp : WriteResp) : PyResult Unit × List TransportCall × Sensor :=
  let cr := connect s o
  if cr.1 then
    let payload := (((Builder.mk []).add32 tm).add32 v).toRegisters
    let trace := [TransportCall.connect, TransportCall.writeBlock 0x0350 payload s.unit_id]
    match resp with
    | .ok => (.ret (), trace, cr.2)
    | .errStatus => (.exn "nLF conductivity calibration failed.", trace, cr.2)
    | .raised => (.exn "ModbusException", trace, cr.2)
  else
    (.exn "AssertionError: Failed to connect to the sensor", [TransportCall.connect], cr.2)

/-- The F32 register encoding used by set_user_tds_coefficient: builder
add_32bit_float then to_registers. -/
def f32Encode (x : Nat) : List Nat := ((Builder.mk []).add32 x).toRegisters

/-- The F32 register decoding used by get_user_tds_coefficient: a decoder
over the two registers, decode_32bit_float. -/
def f32Decode (regs : List Nat) : Nat := ((Decoder.fromRegisters regs).decode32).1

/-- Model of get_user_tds_coefficient: one read of 2 holding registers at
0x0500; an error-status response raises. -/
def get_user_tds_coefficient (s : Sensor) (resp : ReadResp) :
    PyResult Nat × List TransportCall :=
  let trace := [TransportCall.readHolding 0x0500 2 s.unit_id]
  match resp with
  | .ok regs => (.ret (f32Decode regs), trace)
  | .errStatus => (.exn "Failed to read TDS coefficient", trace)
  | .raised => (.exn "ModbusException", trace)

/-- Model of set_user_tds_coefficient: one block write of the encoded F32 at
0x0500; an error-status response raises. -/
def set_user_tds_coefficient (s : Sensor) (x : Nat) (resp : WriteResp) :
    PyResult Unit × List TransportCall :=
  let trace := [TransportCall.writeBlock 0x0500 (f32Encode x) s.unit_id]
  match resp with
  | .ok => (.ret (), trace)
  | .errStatus => (.exn "Failed to set TDS coefficient", trace)
  | .raised => (.exn "ModbusException", trace)

/-- A complete cap-coefficient mapping for concrete evaluation. -/
def capValsFull : List (String × Nat) :=
  [("K1", 1), ("K2", 2), ("K3", 3), ("K4", 4), ("K5", 5), ("K6", 6), ("K7", 7), ("KC", 8),
   ("Cap Replacement Time", 1610000000)]

/-- A cap-coefficient mapping with one extra undeclared key. -/
def capValsExtra : List (String × Nat) := capValsFull ++ [("EXTRA", 10)]

/-- A 17-word device-identification buffer whose serial-number strings are
ASCII with NUL right-padding: manufacturing serial ABC, board serial XY. -/
def devBuf : List Nat :=
  [1, 2, 3, 4, 5, 6, 7, 8, 65 * 256 + 66, 67 * 256, 0, 0, 0, 88 * 256 + 89, 0, 0, 0]

/-- Grouping a byte list into words halves its length. -/
theorem bytesToWords_length : ∀ l : List Nat, (bytesToWords l).length = l.length / 2
  | [] => rfl
  | [_] => by simp [bytesToWords]
  | _ :: _ :: rest => by
      simp [bytesToWords, bytesToWords_length rest]
      omega

/-- If every key of the remaining key list is present in the values mapping,
the builder loop succeeds and adds exactly the declared byte widths. -/
theorem buildCapGo_complete (c : List (String × Nat)) :
    ∀ (ks : List String) (b : Builder), (∀ k, k ∈ ks → (c.lookup k).isSome) →
      ∃ b2, buildCapGo c ks b = some b2 ∧ b2.payload.length = b.payload.length + keysWidth ks
  | [], b, _ => ⟨b, rfl, by simp [keysWidth]⟩
  | k :: ks, b, h => by
      obtain ⟨v, hv⟩ := Option.isSome_iff_exists.mp (h k (by simp))
      obtain ⟨b2, hb2, hlen⟩ :=
        buildCapGo_complete c ks (if k = "KC" then b.add16 v else b.add32 v)
          (fun k2 hk2 => h k2 (by simp [hk2]))
      refine ⟨b2, ?_, ?_⟩
      · simp [buildCapGo, hv, hb2]
      · by_cases hk : k = "KC" <;>
          simp [hk, keysWidth, keyWidth, Builder.add16, Builder.add32, u16be, u32be] at hlen ⊢ <;>
          omega

/-- If some key of the remaining key list is missing from the values
mapping, the builder loop fails. -/
theorem buildCapGo_missing (c : List (String × Nat)) :
    ∀ (ks : List String) (b : Builder) (k : String), k ∈ ks → c.lookup k = none →
      buildCapGo c ks b = none
  | [], _, _, hmem, _ => absurd hmem (by simp)
  | k0 :: ks, b, k, hmem, hnone => by
      rcases List.mem_cons.mp hmem with h | h
      · subst h
        simp [buildCapGo, hnone]
      · cases hl : c.lookup k0 with
        | none => simp [buildCapGo, hl]
        | some v => simpa [buildCapGo, hl] using buildCapGo_missing c ks _ k h hnone

/-- A values mapping that supplies every declared cap-coefficient key
builds a 17-word payload. -/
theorem buildCap_complete (c : List (String × Nat)) (h : ∀ k, k ∈ capKeys → (c.lookup k).isSome) :
    ∃ b, buildCap c = some b ∧ b.toRegisters.length = 17 := by
  obtain ⟨b, hb, hlen⟩ := buildCapGo_complete c capKeys (Builder.mk []) h
  have h34 : keysWidth capKeys = 34 := by decide
  refine ⟨b, hb, ?_⟩
  have hp : b.payload.length = 34 := by
    simp [h34] at hlen
    simpa using hlen
  simp [Builder.toRegisters, bytesToWords_length, hp]

/-- C7: the F32 codec of the user-coefficient accessors round-trips bit for
bit: decoding the two-word register encoding of any 32-bit pattern
(including signed zero, subnormal and NaN payload patterns) returns exactly
that pattern, and encoding the pattern decoded from any two register words
returns exactly those words. -/
theorem f32_roundtrip_thm :
    (∀ x : Nat, x < 2 ^ 32 → f32Decode (f32Encode x) = x) ∧
    (∀ w0 w1 : Nat, w0 < 2 ^ 16 → w1 < 2 ^ 16 → f32Encode (f32Decode [w0, w1]) = [w0, w1]) := by
  constructor
  · intro x hx
    simp [f32Decode, f32Encode, Builder.add32, Builder.toRegisters, u32be, bytesToWords,
      Decoder.fromRegisters, Decoder.decode32, Decoder.takeBytes, wordsToBytes, wordToBytes,
      bytesBE, List.foldl]
    omega
  · intro w0 w1 h0 h1
    simp [f32Decode, f32Encode, Builder.add32, Builder.toRegisters, u32be, bytesToWords,
      Decoder.fromRegisters, Decoder.decode32, Decoder.takeBytes, wordsToBytes, wordToBytes,
      bytesBE, List.foldl]
    omega

/-- Witness for f32_roundtrip_thm at a NaN payload pattern and at a signed
subnormal word pair. -/
theorem f32_roundtrip_witness :
    f32Decode (f32Encode 0x7FC00001) = 0x7FC00001 ∧
    f32Encode (f32Decode [0x8000, 0x0001]) = [0x8000, 0x0001] :=
  ⟨f32_roundtrip_thm.1 0x7FC00001 (by decide),
   f32_roundtrip_thm.2 0x8000 0x0001 (by decide) (by decide)⟩

/-- C8: for every baud and parity label pair present in the code tables,
the combined register value written by the setter decodes through the read
path to exactly the original label pair. -/
theorem baud_parity_roundtrip_thm :
    (baud_rates.all fun bc => parities.all fun pc =>
      decide (((encodeBaudParity bc.1 pc.1).bind (fun w => decodeBaudParity [w])) =
        some (bc.1, pc.1))) = true := by decide

/-- C9: set_baud_rate_and_parity with a label pair absent from the code
tables raises the validating ValueError before any transport call and
issues zero transport calls. -/
theorem set_baud_rejects_unknown (s : Sensor) (baud : Nat) (parity : String) (resp : WriteResp)
    (h : encodeBaudParity baud parity = none) :
    (set_baud_rate_and_parity s baud parity resp).1 = .exn "Invalid baud rate or parity." ∧
    (set_baud_rate_and_parity s baud parity resp).2 = [] := by
  simp [set_baud_rate_and_parity, h]

/-- Witness for set_baud_rejects_unknown at the unsupported baud rate 1234. -/
theorem set_baud_rejects_unknown_witness :
    (set_baud_rate_and_parity (sensorInit 1) 1234 "even" .ok).1 = .exn "Invalid baud rate or parity." ∧
    (set_baud_rate_and_parity (sensorInit 1) 1234 "even" .ok).2 = [] :=
  set_baud_rejects_unknown (sensorInit 1) 1234 "even" .ok (by decide)

/-- C10: disconnect only closes the client and never modifies the connected
attribute; the attribute is set to False by the constructor and to the
client result by connect, so a successful connect followed by disconnect
still reports the session as connected. -/
theorem disconnect_preserves_connected_flag :
    (∀ s : Sensor, (disconnect s).connected = s.connected ∧ (disconnect s).clientOpen = false) ∧
    (∀ uid : Nat, (sensorInit uid).connected = false) ∧
    (∀ (s : Sensor) (o : ConnectOutcome), ((connect s o).2).connected = (connect s o).1) ∧
    (∀ s : Sensor, (disconnect (connect s .opened).2).connected = true) := by
  refine ⟨fun s => ⟨rfl, rfl⟩, fun uid => rfl, fun s o => ?_, fun s => rfl⟩
  cases o <;> rfl

/-- C1 (evaluation at the failing input): when the device write response
carries an error status, set_baud_rate_and_parity still returns True and
perform_odo_percent_saturation_calibration still returns normally, because
neither inspects isError() on the write result. -/
theorem write_error_status_reported_success :
    (set_baud_rate_and_parity (sensorInit 1) 19200 "even" .errStatus).1 = .ret true ∧
    (perform_odo_percent_saturation_calibration (sensorInit 1) 1610000000 0x443E0000 .errStatus).1
      = .ret () := by decide

/-- C2 (counterexample): on a session whose connected attribute is False,
get_data still issues its read and returns a decoded result instead of
rejecting with a connectivity error, and the two conductance calibrations
each initiate a connection as their first transport action. -/
theorem disconnected_not_rejected_cex :
    ((get_data (sensorInit 1) (.ok (List.replicate 24 0))).1.isSome = true) ∧
    ((get_data (sensorInit 1) (.ok (List.replicate 24 0))).2 = [.readInput 0x0000 24 1]) ∧
    ((perform_specific_conductance_calibration (sensorInit 1) .opened 0 0 .ok).2.1.head? =
      some .connect) ∧
    ((perform_nlf_conductivity_calibration (sensorInit 1) .opened 0 0 .ok).2.1.head? =
      some .connect) := by decide

/-- C2 (amended): no operation consults the connected attribute — get_data
issues its single read on any session, connected or not, and returns a
decoded result whenever the read succeeds; and far from rejecting, the two
conductance calibration writes each initiate a connection themselves
(auto-reconnect) as their first transport action, failing only through the
assertion on that connect result. -/
theorem connectivity_amended :
    (∀ (s : Sensor) (resp : ReadResp), (get_data s resp).2 = [.readInput 0x0000 24 s.unit_id]) ∧
    (∀ (s : Sensor) (regs : List Nat), ((get_data s (.ok regs)).1).isSome = true) ∧
    (∀ (s : Sensor) (o : ConnectOutcome) (tm v : Nat) (resp : WriteResp),
      (perform_specific_conductance_calibration s o tm v resp).2.1.head? = some .connect) ∧
    (∀ (s : Sensor) (o : ConnectOutcome) (tm v : Nat) (resp : WriteResp),
      (perform_nlf_conductivity_calibration s o tm v resp).2.1.head? = some .connect) := by
  refine ⟨fun s resp => ?_, fun s regs => rfl, fun s o tm v resp => ?_, fun s o tm v resp => ?_⟩
  · cases resp <;> rfl
  · cases o <;> cases resp <;> rfl
  · cases o <;> cases resp <;> rfl

/-- C3 (counterexample): the live-snapshot field slices are not all two
words wide — the barometer field slice spans four register words — and
register words 6 and 7 of the 24-word block are decoded by no field. -/
theorem live_snapshot_width_cex :
    ((liveSnapshotFields.map fun f => f.2.2 - f.2.1) = [2, 2, 4, 2, 2, 2, 2, 2, 2, 2, 2]) ∧
    liveSnapshotConsumes 6 = 0 ∧ liveSnapshotConsumes 7 = 0 := by decide

/-- C3 (amended): the 11 slices tile the 24-word block without gaps or
overlaps (each slice starts where the previous one ends, the first at 0 and
the last ending at 24); every field decode consumes exactly the first two
words of its slice; every slice is two words wide except the barometer
slice, which is four; hence every word of the block is consumed exactly
once except words 6 and 7, which are fetched but never decoded — the
barometer decode depends only on words 4 and 5 of its four-word slice. -/
theorem live_snapshot_layout_amended :
    (((liveSnapshotFields.zip (liveSnapshotFields.drop 1)).all fun p => p.1.2.2 == p.2.2.1) = true) ∧
    (liveSnapshotFields.head?.map (fun f => f.2.1) = some 0) ∧
    ((liveSnapshotFields.getLast?).map (fun f => f.2.2) = some 24) ∧
    (((liveSnapshotFields.map fun f => f.2.2 - f.2.1).filter (fun w => w != 2)) = [4]) ∧
    (((List.range 24).all fun w =>
        liveSnapshotConsumes w == if w = 6 ∨ w = 7 then 0 else 1) = true) ∧
    (∀ regs : List Nat, sliceDecode32 regs 4 8 = sliceDecode32 regs 4 6) := by
  refine ⟨by decide, by decide, by decide, by decide, by decide, ?_⟩
  intro regs
  rcases hl : regs.drop 4 with _ | ⟨a, _ | ⟨b, rest⟩⟩ <;>
    simp [sliceDecode32, hl, Decoder.fromRegisters, Decoder.decode32, Decoder.takeBytes,
      wordsToBytes, wordToBytes, bytesToWords, bytesBE]

/-- C4 (counterexample): a values mapping supplying all nine declared
cap-coefficient fields plus an extra undeclared field EXTRA is not
rejected: the extra key is silently ignored and the single block write is
still issued. -/
theorem set_cap_extra_field_cex :
    ((set_odo_cap_coefficients (sensorInit 1) capValsExtra .ok).1 = .ret true) ∧
    ((set_odo_cap_coefficients (sensorInit 1) capValsExtra .ok).2.length = 1) := by decide

/-- C4 (amended): a mapping missing a declared field fails — with a
KeyError rather than a ValidationError — before any transport call and
issues zero transport calls; extra fields are never consulted, so every
mapping that supplies at least the nine declared fields proceeds to the
single 17-word block write at 0x0100. -/
theorem set_cap_fields_amended :
    (∀ (s : Sensor) (c : List (String × Nat)) (resp : WriteResp) (k : String),
        k ∈ capKeys → c.lookup k = none →
        (set_odo_cap_coefficients s c resp).1 = .exn "KeyError" ∧
        (set_odo_cap_coefficients s c resp).2 = []) ∧
    (∀ (s : Sensor) (c : List (String × Nat)) (resp : WriteResp),
        (∀ k, k ∈ capKeys → (c.lookup k).isSome) →
        ∃ p, (set_odo_cap_coefficients s c resp).2 = [.writeBlock 0x0100 p s.unit_id] ∧
          p.length = 17) := by
  constructor
  · intro s c resp k hk hnone
    have hb : buildCap c = none := buildCapGo_missing c capKeys (Builder.mk []) k hk hnone
    simp [set_odo_cap_coefficients, hb]
  · intro s c resp h
    obtain ⟨b, hb, hlen⟩ := buildCap_complete c h
    refine ⟨b.toRegisters, ?_, hlen⟩
    cases resp <;> simp [set_odo_cap_coefficients, hb]

/-- Witness for set_cap_fields_amended: the empty mapping fails with zero
transport calls, and the complete mapping issues the single 17-word write. -/
theorem set_cap_fields_amended_witness :
    ((set_odo_cap_coefficients (sensorInit 1) [] .ok).1 = .exn "KeyError" ∧
     (set_odo_cap_coefficients (sensorInit 1) [] .ok).2 = []) ∧
    (∃ p, (set_odo_cap_coefficients (sensorInit 1) capValsFull .ok).2 =
        [.writeBlock 0x0100 p 1] ∧ p.length = 17) :=
  ⟨set_cap_fields_amended.1 (sensorInit 1) [] .ok "K1" (by decide) rfl,
   set_cap_fields_amended.2 (sensorInit 1) capValsFull .ok (by decide)⟩

/-- C5 (counterexample): decoding the concrete 17-word device
identification buffer devBuf, whose manufacturing serial number is ABC
padded with NUL bytes, returns the full 10-byte field including the
padding, not the trimmed 3-byte string. -/
theorem device_string_untrimmed_cex :
    (((get_device_info (sensorInit 1) (.ok devBuf)).1.bind
        (fun l => l.lookup "manufacturing_serial_number")) =
      some (.str [65, 66, 67, 0, 0, 0, 0, 0, 0, 0])) ∧
    (Val.str [65, 66, 67, 0, 0, 0, 0, 0, 0, 0] ≠ Val.str [65, 66, 67]) := by decide

/-- C5 (amended): fixed-string decoding does treat each register word as
two bytes high byte first, but performs no right-trimming: the
manufacturing serial number of a device-identification buffer whose ninth
and tenth words carry the ASCII bytes a, b, c followed by NUL padding
decodes to the full declared 10-byte field with the padding preserved, and
the cap serial of a one-word buffer likewise decodes to its full 10 bytes. -/
theorem device_strings_untrimmed (a b c w : Nat) (s : Sensor) (pre : List Nat)
    (ha : a < 256) (hb : b < 256) (hc : c < 256) (hpre : pre.length = 8) :
    (((get_device_info s (.ok (pre ++ [a * 256 + b, c * 256, 0, 0, 0, 0, 0, 0, 0]))).1.bind
        (fun l => l.lookup "manufacturing_serial_number")) =
      some (.str [a, b, c, 0, 0, 0, 0, 0, 0, 0])) ∧
    ((get_cap_serial s (.ok [w, 0, 0, 0, 0])).1 =
      some (.str [w / 256 % 256, w % 256, 0, 0, 0, 0, 0, 0, 0, 0])) := by
  constructor
  · have hdrop : (pre ++ [a * 256 + b, c * 256, 0, 0, 0, 0, 0, 0, 0]).drop 8 =
        [a * 256 + b, c * 256, 0, 0, 0, 0, 0, 0, 0] := by
      rw [← hpre, List.drop_left]
    simp [get_device_info, stringAt, hdrop, Decoder.fromRegisters, Decoder.decodeString,
      Decoder.takeBytes, wordsToBytes, wordToBytes, List.lookup]
    omega
  · rfl

/-- Witness for device_strings_untrimmed at the ASCII bytes of ABC and the
word 0x5678. -/
theorem device_strings_untrimmed_witness :
    (((get_device_info (sensorInit 1)
        (.ok ([0, 0, 0, 0, 0, 0, 0, 0] ++ [65 * 256 + 66, 67 * 256, 0, 0, 0, 0, 0, 0, 0]))).1.bind
        (fun l => l.lookup "manufacturing_serial_number")) =
      some (.str [65, 66, 67, 0, 0, 0, 0, 0, 0, 0])) ∧
    ((get_cap_serial (sensorInit 1) (.ok [22136, 0, 0, 0, 0])).1 =
      some (.str [22136 / 256 % 256, 22136 % 256, 0, 0, 0, 0, 0, 0, 0, 0])) :=
  device_strings_untrimmed 65 66 67 22136 (sensorInit 1) [0, 0, 0, 0, 0, 0, 0, 0]
    (by decide) (by decide) (by decide) (by decide)

/-- C6: every named layout operation issues exactly one block transport
call of the layout word count at its mapped address and register kind: the
live snapshot one read of 24 input registers at 0x0000, device
identification one read of 17 holding registers at 0x1000, cap serial one
read of 5 holding registers at 0x0120, cap coefficients one read of 17
holding registers at 0x0100 and one write of 17 words at 0x0100, the TDS
coefficient one read of 2 holding registers and one write of 2 words at
0x0500, and the calibration writes one block write of 2, 4 and 6 words at
0x0220, 0x0230 and 0x0240 respectively. -/
theorem ops_single_block_thm :
    (∀ (s : Sensor) (resp : ReadResp), (get_data s resp).2 = [.readInput 0x0000 24 s.unit_id]) ∧
    (∀ (s : Sensor) (resp : ReadResp), (get_device_info s resp).2 = [.readHolding 0x1000 17 s.unit_id]) ∧
    (∀ (s : Sensor) (resp : ReadResp), (get_cap_serial s resp).2 = [.readHolding 0x0120 5 s.unit_id]) ∧
    (∀ (s : Sensor) (resp : ReadResp), (get_odo_cap_coefficients s resp).2 = [.readHolding 0x0100 17 s.unit_id]) ∧
    (∀ (s : Sensor) (resp : ReadResp), (get_user_tds_coefficient s resp).2 = [.readHolding 0x0500 2 s.unit_id]) ∧
    (∀ (s : Sensor) (c : List (String × Nat)) (resp : WriteResp),
        (∀ k, k ∈ capKeys → (c.lookup k).isSome) →
        ∃ p, (set_odo_cap_coefficients s c resp).2 = [.writeBlock 0x0100 p s.unit_id] ∧
          p.length = 17) ∧
    (∀ (s : Sensor) (tm : Nat) (resp : WriteResp),
        ∃ p, (perform_odo_zero_calibration s tm resp).2 = [.writeBlock 0x0220 p s.unit_id] ∧
          p.length = 2) ∧
    (∀ (s : Sensor) (tm press : Nat) (resp : WriteResp),
        ∃ p, (perform_odo_percent_saturation_calibration s tm press resp).2 =
          [.writeBlock 0x0230 p s.unit_id] ∧ p.length = 4) ∧
    (∀ (s : Sensor) (tm v sal : Nat) (resp : WriteResp),
        ∃ p, (perform_odo_mgL_calibration s tm v sal resp).2 =
          [.writeBlock 0x0240 p s.unit_id] ∧ p.length = 6) ∧
    (∀ (s : Sensor) (x : Nat) (resp : WriteResp),
        (set_user_tds_coefficient s x resp).2 = [.writeBlock 0x0500 (f32Encode x) s.unit_id] ∧
          (f32Encode x).length = 2) := by
  refine ⟨fun s resp => by cases resp <;> rfl,
          fun s resp => by cases resp <;> rfl,
          fun s resp => by cases resp <;> rfl,
          fun s resp => by cases resp <;> rfl,
          fun s resp => by cases resp <;> rfl,
          fun s c resp h => ?_,
          fun s tm resp => ?_,
          fun s tm press resp => ?_,
          fun s tm v sal resp => ?_,
          fun s x resp => ?_⟩
  · obtain ⟨b, hb, hlen⟩ := buildCap_complete c h
    exact ⟨b.toRegisters, by cases resp <;> simp [set_odo_cap_coefficients, hb], hlen⟩
  · refine ⟨((Builder.mk []).add32 tm).toRegisters, by cases resp <;> rfl, ?_⟩
    simp [Builder.toRegisters, Builder.add32, u32be, bytesToWords_length]
  · refine ⟨(((Builder.mk []).add32 tm).add32 press).toRegisters, by cases resp <;> rfl, ?_⟩
    simp [Builder.toRegisters, Builder.add32, u32be, bytesToWords_length]
  · refine ⟨((((Builder.mk []).add32 tm).add32 v).add32 sal).toRegisters, by cases resp <;> rfl, ?_⟩
    simp [Builder.toRegisters, Builder.add32, u32be, bytesToWords_length]
  · exact ⟨by cases resp <;> rfl,
      by simp [f32Encode, Builder.toRegisters, Builder.add32, u32be, bytesToWords_length]⟩

/-- Witness for ops_single_block_thm: the complete cap-coefficient mapping
issues the single 17-word block write. -/
theorem ops_single_block_witness :
    ∃ p, (set_odo_cap_coefficients (sensorInit 1) capValsFull .ok).2 =
      [.writeBlock 0x0100 p 1] ∧ p.length = 17 :=
  ops_single_block_thm.2.2.2.2.2.1 (sensorInit 1) capValsFull .ok (by decide)

end YSIOdo
